import Mathlib

/-!
Verification of the configuration resolver, page-object layer, step
definitions and harness hooks of a Playwright/pytest-bdd test suite.

The Python sources are embedded shallowly:
  * `config.py`                         : environment-file resolution and the
    typed boolean / integer environment parsers;
  * `test_data/airports.py`             : the static airport mapping;
  * `tests/pages/home_page.py`          : the home-page page object, modelled
    over an abstract UI oracle that records the primitive Playwright
    interactions (click / fill / visibility / checked-state) and their
    outcomes;
  * `tests/steps/test_basic_search_steps.py` : the parameterized step that
    converts a value plus a unit word into a day offset;
  * `conftest.py`                       : the page-fixture lifecycle around the
    shared active-page reference.

Python machine behaviour is modelled with explicit functions: `str.strip` /
`str.lower` as `String.trim` / `String.toLower` (the inputs of interest are
ASCII), `int(...)` as `pyIntParse`, and `datetime.date` arithmetic as an
explicit proleptic-Gregorian calendar.
-/

namespace KiwiSpec

/-! ## Python string primitives

`str.strip()` and `str.lower()` are embedded explicitly over the character
list of the string (the values of interest are ASCII). -/

/-- ASCII case-lowering of one character (`str.lower` on ASCII input). -/
def pyLowerChar (c : Char) : Char :=
  if 65 ≤ c.toNat ∧ c.toNat ≤ 90 then Char.ofNat (c.toNat + 32) else c

/-- Embedding of `str.lower()` for ASCII strings. -/
def pyLower (s : String) : String := String.mk (s.data.map pyLowerChar)

/-- ASCII whitespace, as stripped by `str.strip()`. -/
def pyIsSpace (c : Char) : Bool :=
  c = ' ' || c = '\t' || c = '\n' || c = '\r' || c = '\x0b' || c = '\x0c'

/-- Embedding of `str.strip()` for ASCII strings: drop leading and trailing
whitespace. -/
def pyStrip (s : String) : String :=
  String.mk (((s.data.dropWhile pyIsSpace).reverse.dropWhile pyIsSpace).reverse)

/-! ## Configuration resolver (`config.py`) -/

/-- Result of reading one typed setting from the environment: the value
returned to the caller, and whether a `RuntimeWarning` was emitted. -/
structure EnvParse (α : Type) where
  value : α
  warned : Bool
deriving DecidableEq, Repr

/-- Truthy tokens accepted by `_get_env_bool`. -/
def truthyTokens : List String := ["1", "true", "yes", "on"]

/-- Falsy tokens accepted by `_get_env_bool`. -/
def falsyTokens : List String := ["0", "false", "no", "off"]

/-- Embedding of `_get_env_bool` (config.py).  `raw` is `os.getenv(name)`:
`none` when the variable is unset.  The raw value is stripped and lowered,
matched against the truthy and falsy token sets, and any other value warns
and falls back to the default. -/
def getEnvBool (raw : Option String) (dflt : Bool) : EnvParse Bool :=
  match raw with
  | none => ⟨dflt, false⟩
  | some rawValue =>
    let normalized := pyLower (pyStrip rawValue)
    if normalized ∈ truthyTokens then ⟨true, false⟩
    else if normalized ∈ falsyTokens then ⟨false, false⟩
    else ⟨dflt, true⟩

/-- Digit run of a Python integer literal: digits with single underscores
allowed between digits (CPython `int(str)` grouping rule). `acc` is the value
accumulated so far. -/
def parseDigitsAux (acc : Nat) : List Char → Option Nat
  | [] => some acc
  | c :: cs =>
    if c = '_' then
      match cs with
      | [] => none
      | c2 :: cs2 =>
        if c2.isDigit then parseDigitsAux (acc * 10 + (c2.toNat - 48)) cs2 else none
    else if c.isDigit then parseDigitsAux (acc * 10 + (c.toNat - 48)) cs
    else none

/-- Parse a nonempty digit sequence (underscore grouping allowed) to a `Nat`. -/
def parseDigits : List Char → Option Nat
  | [] => none
  | c :: cs => if c.isDigit then parseDigitsAux (c.toNat - 48) cs else none

/-- Embedding of CPython `int(str)`: strip surrounding whitespace, an optional
sign, then a digit run; `none` models a raised `ValueError`. -/
def pyIntParse (s : String) : Option Int :=
  match (pyStrip s).data with
  | [] => none
  | c :: rest =>
    if c = '+' then (parseDigits rest).map Int.ofNat
    else if c = '-' then (parseDigits rest).map (fun n => -(n : Int))
    else (parseDigits (c :: rest)).map Int.ofNat

/-- Embedding of `_get_env_int` (config.py): `int(raw)` on the raw value,
with a warning plus the default on `ValueError`. -/
def getEnvInt (raw : Option String) (dflt : Int) : EnvParse Int :=
  match raw with
  | none => ⟨dflt, false⟩
  | some rawValue =>
    match pyIntParse rawValue with
    | some n => ⟨n, false⟩
    | none => ⟨dflt, true⟩

/-- Spec-side notion of a plain numeric string (for the refinement direction
of C6): after stripping whitespace, an optional sign followed by at least one
ASCII digit. -/
def specNumeric (s : String) : Bool :=
  match (pyStrip s).data with
  | [] => false
  | c :: rest =>
    if c = '+' ∨ c = '-' then !rest.isEmpty && rest.all Char.isDigit
    else (c :: rest).all Char.isDigit

/-- Mathematical value of a digit list (most significant first). -/
def digitsToNat (ds : List Char) : Nat :=
  ds.foldl (fun acc c => acc * 10 + (c.toNat - 48)) 0

/-- Spec-side value of a plain numeric string. -/
def specIntValue (s : String) : Int :=
  match (pyStrip s).data with
  | [] => 0
  | c :: rest =>
    if c = '+' then Int.ofNat (digitsToNat rest)
    else if c = '-' then -(Int.ofNat (digitsToNat rest))
    else Int.ofNat (digitsToNat (c :: rest))

/-- Candidate environment-file paths checked by `_load_environment`
(config.py), in order.  `testEnv` is `os.getenv("TEST_ENV")`; Python
truthiness makes an empty string behave like an unset variable. -/
def candidatePaths (testEnv : Option String) : List String :=
  (match testEnv with
   | some name => if name ≠ "" then ["env/" ++ name ++ ".env", name ++ ".env"] else []
   | none => []) ++ ["env/test.env", "test.env", ".env"]

/-- Outcome of `_load_environment`: either the first existing candidate file
was loaded (`override` records the `override=True` argument of
`load_dotenv`), or no candidate existed and the default `load_dotenv()`
discovery ran. -/
inductive LoadOutcome where
  | loaded (path : String) (override : Bool)
  | defaultSearch
deriving DecidableEq, Repr

/-- Embedding of `_load_environment` (config.py): walk the candidate list and
load the first path that exists on the filesystem `fs`, with override;
fall back to the default discovery when none exists. -/
def loadEnvironment (fs : String → Bool) (testEnv : Option String) : LoadOutcome :=
  match (candidatePaths testEnv).find? fs with
  | some p => .loaded p true
  | none => .defaultSearch

/-! ## Airport test data (`test_data/airports.py`) -/

/-- Embedding of `AIRPORT_MAPPINGS`: airport code to display name. -/
def AIRPORT_MAPPINGS : List (String × String) :=
  [("RTM", "Rome, Italy"), ("MAD", "Madrid, Spain")]

/-- Dictionary lookup `AIRPORT_MAPPINGS[code]`; `isSome` is the Python
`code in AIRPORT_MAPPINGS` membership test. -/
def airportLookup (code : String) : Option String :=
  AIRPORT_MAPPINGS.lookup code

/-! ## Calendar model for `datetime.date` arithmetic -/

/-- Gregorian leap-year rule, as in CPython `calendar.isleap`. -/
def isLeap (y : Nat) : Bool :=
  y % 4 == 0 && (y % 100 != 0 || y % 400 == 0)

/-- Days in month `m` of year `y` (months are 1-based). -/
def daysInMonth (y m : Nat) : Nat :=
  if m = 2 then (if isLeap y then 29 else 28)
  else if m = 4 ∨ m = 6 ∨ m = 9 ∨ m = 11 then 30
  else 31

/-- A calendar date, mirroring `datetime.date`. -/
structure Date where
  year : Nat
  month : Nat
  day : Nat
deriving DecidableEq, Repr

/-- A date `datetime.date` would accept: positive year, month 1..12, day
within the month. -/
def Date.valid (d : Date) : Prop :=
  1 ≤ d.year ∧ 1 ≤ d.month ∧ d.month ≤ 12 ∧ 1 ≤ d.day ∧ d.day ≤ daysInMonth d.year d.month

instance (d : Date) : Decidable d.valid := by
  unfold Date.valid; infer_instance

/-- Calendar successor of a date. -/
def Date.next (d : Date) : Date :=
  if d.day < daysInMonth d.year d.month then ⟨d.year, d.month, d.day + 1⟩
  else if d.month < 12 then ⟨d.year, d.month + 1, 1⟩
  else ⟨d.year + 1, 1, 1⟩

/-- Embedding of `today + datetime.timedelta(days=n)` for a non-negative
offset: `n` calendar successors. -/
def dateAddDays (d : Date) : Nat → Date
  | 0 => d
  | n + 1 => (dateAddDays d n).next

/-- Cumulative day counts before each month in a non-leap year, indexed by
month minus one (CPython `_DAYS_BEFORE_MONTH`). -/
def daysBeforeMonthTable : List Nat :=
  [0, 31, 59, 90, 120, 151, 181, 212, 243, 273, 304, 334]

/-- Days in the months strictly before month `m` of year `y`
(CPython `_days_before_month`). -/
def daysBeforeMonth (y m : Nat) : Nat :=
  daysBeforeMonthTable.getD (m - 1) 0 + (if 2 < m ∧ isLeap y then 1 else 0)

/-- Days in the years strictly before year `y`
(CPython `_days_before_year`). -/
def daysBeforeYear (y : Nat) : Nat :=
  (y - 1) * 365 + (y - 1) / 4 - (y - 1) / 100 + (y - 1) / 400

/-- Proleptic-Gregorian ordinal of a date (CPython `date.toordinal`);
day 1 is January 1 of year 1. -/
def Date.toOrdinal (d : Date) : Nat :=
  daysBeforeYear d.year + daysBeforeMonth d.year d.month + d.day

/-- The decimal digit character for `n mod 10`. -/
def digitChar (n : Nat) : Char := Char.ofNat (48 + n % 10)

/-- Zero-padded two-digit decimal field (strftime `%m` / `%d`); exact for
`n < 100`, which covers every month and day number. -/
def pad2 (n : Nat) : String := String.mk [digitChar (n / 10), digitChar n]

/-- Zero-padded four-digit decimal field (strftime `%Y`); exact for
`n < 10000`, which covers the whole `datetime.date` year range 1..9999. -/
def pad4 (n : Nat) : String :=
  String.mk [digitChar (n / 1000), digitChar (n / 100), digitChar (n / 10), digitChar n]

/-- Embedding of `target_date.strftime("%Y-%m-%d")`: ISO `YYYY-MM-DD`. -/
def pyDateFormat (d : Date) : String :=
  pad4 d.year ++ "-" ++ pad2 d.month ++ "-" ++ pad2 d.day

/-- Recognizer for the ISO `YYYY-MM-DD` shape: ten characters, digits in the
year, month and day fields, dashes between them. -/
def isIsoDateString (s : String) : Bool :=
  match s.data with
  | [y1, y2, y3, y4, h1, m1, m2, h2, d1, d2] =>
    y1.isDigit && y2.isDigit && y3.isDigit && y4.isDigit &&
    h1 == '-' && m1.isDigit && m2.isDigit && h2 == '-' && d1.isDigit && d2.isDigit
  | _ => false

/-! ## Page object (`tests/pages/home_page.py`)

The page object is embedded over an abstract UI oracle.  Each primitive
Playwright interaction is keyed by the selector string of the locator it acts
on; the oracle decides its outcome:

  * `clickResult sel`   : `none` when `locator.click()` succeeds, `some msg`
    when it raises (timeout / visibility failure) with message `msg`;
  * `fillResult sel t`  : likewise for `locator.fill(t)`;
  * `isVisible sel`     : `locator.is_visible()` — returns a Bool, never
    raises;
  * `checkedResult sel` : `locator.is_checked()` — a Bool, or a raised
    failure.

Each method is embedded as a function returning its Python outcome together
with the trace of primitive UI interactions it attempted, in order. -/

/-- A primitive Playwright interaction, keyed by locator selector. -/
inductive Action where
  | click (sel : String)
  | fill (sel : String) (text : String)
  | queryVisible (sel : String)
  | queryChecked (sel : String)
deriving DecidableEq, Repr

/-- An exception propagating out of a page-object method: a Playwright
UI failure (e.g. `TimeoutError`), or a Python `ValueError` raised by
airport-code validation. -/
inductive PwError where
  | uiFailure (msg : String)
  | valueError (msg : String)
deriving DecidableEq, Repr

/-- Whether an error is the validation `ValueError`. -/
def PwError.isValueError : PwError → Bool
  | .valueError _ => true
  | .uiFailure _ => false

/-- The abstract UI oracle (the live browser page). -/
structure UI where
  clickResult : String → Option String
  fillResult : String → String → Option String
  isVisible : String → Bool
  checkedResult : String → Except String Bool

/-- Outcome of a page-object method: normal return or a propagated
exception, plus the trace of attempted primitive interactions. -/
abbrev PwOutcome := Except PwError Unit × List Action

/-- Selector of `privacy_popup_accept_button`. -/
def cookiesAcceptSel : String := "[data-test=\x27CookiesPopup-Accept\x27]"

/-- Selector of `trip_type_dropdown` (role-based locator). -/
def tripTypeDropdownSel : String := "role=button[name=/Return|One-way/]"

/-- Selector of `one_way_option_in_dropdown`. -/
def oneWayOptionSel : String := "[data-test=\x27ModePopupOption-oneWay\x27]"

/-- Selector of `from_airport_input`. -/
def fromAirportInputSel : String :=
  "[data-test=\x27PlacePickerInput-origin\x27] [data-test=\x27SearchField-input\x27]"

/-- Selector of `to_airport_input`. -/
def toAirportInputSel : String :=
  "[data-test=\x27PlacePickerInput-destination\x27] [data-test=\x27SearchField-input\x27]"

/-- Selector of `departure_date_input`. -/
def departureDateInputSel : String := "[data-test=\x27SearchFieldDateInput\x27]"

/-- Selector of `search_button`. -/
def searchButtonSel : String := "[data-test=\x27LandingSearchButton\x27]"

/-- Selector of `clear_button_on_departure`. -/
def clearDepartureSel : String :=
  "div[data-test=\x27PlacePickerInput-origin\x27] div[data-test=\x27PlacePickerInputPlace-close\x27]"

/-- Selector of `clear_button_on_arrival`. -/
def clearArrivalSel : String :=
  "div[data-test=\x27PlacePickerInput-destination\x27] div[data-test=\x27PlacePickerInputPlace-close\x27]"

/-- Role-based selector of the airport suggestion button
`get_by_role("button", name=f"\x7bfull_airport_name\x7d Add")`. -/
def airportSuggestionSel (fullAirportName : String) : String :=
  "role=button[name=\x27" ++ fullAirportName ++ " Add\x27]"

/-- Selector of the calendar cell holding date value `d`. -/
def calendarDaySel (d : String) : String :=
  "div[data-test=\x27CalendarDay\x27][data-value=\x27" ++ d ++ "\x27]"

/-- Selector of the date-picker confirm button. -/
def setDatesButtonSel : String := "[data-test=\x27SearchFormDoneButton\x27]"

/-- Label-based selector of the accommodation checkbox. -/
def accommodationCheckboxSel : String := "label=Check accommodation with Kiwi.com Hotels"

/-- Selector of the checkbox icon clicked to uncheck accommodation. -/
def checkboxIconSel : String := ".orbit-checkbox-icon-container > .orbit-icon"

/-- One `locator.click()`: outcome plus its one-element trace. -/
def clickA (ui : UI) (sel : String) : PwOutcome :=
  (match ui.clickResult sel with
   | none => .ok ()
   | some msg => .error (.uiFailure msg), [.click sel])

/-- One `locator.fill(text)`: outcome plus its one-element trace. -/
def fillA (ui : UI) (sel text : String) : PwOutcome :=
  (match ui.fillResult sel text with
   | none => .ok ()
   | some msg => .error (.uiFailure msg), [.fill sel text])

/-- Sequencing of two interactions: the second runs only when the first
returned normally; a raised exception short-circuits (Python control flow). -/
def seqA (a b : PwOutcome) : PwOutcome :=
  match a with
  | (.error e, tr) => (.error e, tr)
  | (.ok _, tr) => (b.fst, tr ++ b.snd)

/-- The `if clear_button.is_visible(): clear_button.click()` pattern shared
by both airport setters. -/
def clearIfVisible (ui : UI) (sel : String) : PwOutcome :=
  if ui.isVisible sel then
    seqA (.ok (), [.queryVisible sel]) (clickA ui sel)
  else (.ok (), [.queryVisible sel])

/-- Embedding of `accept_privacy_consent`: checks visibility, clicks when
visible, and catches every exception, returning a Bool success flag. -/
def accept_privacy_consent (ui : UI) : Bool × List Action :=
  if ui.isVisible cookiesAcceptSel then
    match ui.clickResult cookiesAcceptSel with
    | none => (true, [.queryVisible cookiesAcceptSel, .click cookiesAcceptSel])
    | some _ => (false, [.queryVisible cookiesAcceptSel, .click cookiesAcceptSel])
  else (false, [.queryVisible cookiesAcceptSel])

/-- Embedding of `select_one_way_trip`: two clicks, exceptions propagate. -/
def select_one_way_trip (ui : UI) : PwOutcome :=
  seqA (clickA ui tripTypeDropdownSel) (clickA ui oneWayOptionSel)

/-- Embedding of `set_departure_airport`: validate the code against the
mapping (raising `ValueError` before touching the page when absent), clear
any existing selection if the clear control is visible, click and fill the
origin input, click the matching suggestion. -/
def set_departure_airport (ui : UI) (airportCode : String) : PwOutcome :=
  match airportLookup airportCode with
  | none =>
    (.error (.valueError
      ("Airport code \x27" ++ airportCode ++ "\x27 not found in mappings")), [])
  | some fullAirportName =>
    seqA (clearIfVisible ui clearDepartureSel)
      (seqA (clickA ui fromAirportInputSel)
        (seqA (fillA ui fromAirportInputSel airportCode)
          (clickA ui (airportSuggestionSel fullAirportName))))

/-- Embedding of `set_arrival_airport`: as the departure setter, against the
destination input and clear control. -/
def set_arrival_airport (ui : UI) (airportCode : String) : PwOutcome :=
  match airportLookup airportCode with
  | none =>
    (.error (.valueError
      ("Airport code \x27" ++ airportCode ++ "\x27 not found in mappings")), [])
  | some fullAirportName =>
    seqA (clearIfVisible ui clearArrivalSel)
      (seqA (clickA ui toAirportInputSel)
        (seqA (fillA ui toAirportInputSel airportCode)
          (clickA ui (airportSuggestionSel fullAirportName))))

/-- Embedding of `set_departure_date`: open the date picker, click the
calendar cell whose `data-value` is today plus `totalDays` in ISO format,
confirm.  `today` stands for `datetime.date.today()`. -/
def set_departure_date (ui : UI) (today : Date) (totalDays : Nat) : PwOutcome :=
  seqA (clickA ui departureDateInputSel)
    (seqA (clickA ui (calendarDaySel (pyDateFormat (dateAddDays today totalDays))))
      (clickA ui setDatesButtonSel))

/-- Embedding of `uncheck_accommodation_option`: query the checkbox state
and click the icon only when checked; exceptions propagate. -/
def uncheck_accommodation_option (ui : UI) : PwOutcome :=
  match ui.checkedResult accommodationCheckboxSel with
  | .error msg => (.error (.uiFailure msg), [.queryChecked accommodationCheckboxSel])
  | .ok true =>
    seqA (.ok (), [.queryChecked accommodationCheckboxSel]) (clickA ui checkboxIconSel)
  | .ok false => (.ok (), [.queryChecked accommodationCheckboxSel])

/-- Embedding of `click_search_button`. -/
def click_search_button (ui : UI) : PwOutcome :=
  clickA ui searchButtonSel

/-! ## Step definitions (`tests/steps/test_basic_search_steps.py`) -/

/-- Embedding of the parameterized `set_departure_time` step: weeks map to
`value * 7` days, days map to `value`; any other unit raises `ValueError`
without calling `set_departure_date` (empty trace). -/
def set_departure_time (ui : UI) (today : Date) (value : Nat) (unit : String) : PwOutcome :=
  if unit = "week" ∨ unit = "weeks" then
    set_departure_date ui today (value * 7)
  else if unit = "day" ∨ unit = "days" then
    set_departure_date ui today value
  else
    (.error (.valueError
      ("Unsupported time unit: " ++ unit ++ ". Please use \x27week(s)\x27 or \x27day(s)\x27.")), [])

/-! ## Harness hooks (`conftest.py`) -/

/-- Process-wide harness state: the `_test_failed_page` reference used for
failure-screenshot capture.  Pages are identified by a `Nat` handle. -/
structure HarnessState where
  activePage : Option Nat
deriving DecidableEq, Repr

/-- Outcome of one test. -/
inductive TestOutcome where
  | passed
  | failed
deriving DecidableEq, Repr

/-- Setup half of the overridden `page` fixture: store the test's page in the
shared reference before yielding. -/
def pageFixtureSetup (s : HarnessState) (p : Nat) : HarnessState :=
  { s with activePage := some p }

/-- Teardown half of the `page` fixture: clear the shared reference after the
yield.  pytest runs it during teardown whatever the test outcome was. -/
def pageFixtureTeardown (s : HarnessState) : HarnessState :=
  { s with activePage := none }

/-- One test run through the `page` fixture: setup, test body (its outcome is
abstract), teardown.  Returns the final harness state, the state the body ran
in, and the outcome. -/
def runTest (s : HarnessState) (p : Nat) (outcome : TestOutcome) :
    HarnessState × HarnessState × TestOutcome :=
  let during := pageFixtureSetup s p
  (pageFixtureTeardown during, during, outcome)

/-! ## Concrete UI oracles used as evaluation points -/

/-- An oracle where every interaction succeeds, no clear control is visible
and the accommodation checkbox is unchecked. -/
def idleUI : UI :=
  { clickResult := fun _ => none
    fillResult := fun _ _ => none
    isVisible := fun _ => false
    checkedResult := fun _ => .ok false }

/-- An oracle where every click raises a timeout and the accommodation
checkbox reports checked. -/
def timeoutUI : UI :=
  { clickResult := fun _ => some "Timeout 15000ms exceeded"
    fillResult := fun _ _ => none
    isVisible := fun _ => false
    checkedResult := fun _ => .ok true }

/-- An oracle where only the click on the Rome suggestion button raises a
timeout. -/
def suggestionTimeoutUI : UI :=
  { clickResult := fun sel =>
      if sel = airportSuggestionSel "Rome, Italy" then some "Timeout 15000ms exceeded"
      else none
    fillResult := fun _ _ => none
    isVisible := fun _ => false
    checkedResult := fun _ => .ok false }

/-- An oracle where every fill raises a timeout while clicks succeed, no
clear control is visible and the accommodation checkbox is unchecked. -/
def fillTimeoutUI : UI :=
  { clickResult := fun _ => none
    fillResult := fun _ _ => some "Timeout 15000ms exceeded"
    isVisible := fun _ => false
    checkedResult := fun _ => .ok false }

/-- An oracle where the clear controls are visible, every click raises a
timeout, and the accommodation checked-state query itself raises. -/
def clearTimeoutUI : UI :=
  { clickResult := fun _ => some "Timeout 15000ms exceeded"
    fillResult := fun _ _ => none
    isVisible := fun _ => true
    checkedResult := fun _ => .error "Timeout 15000ms exceeded" }

/-! ## Helper lemmas -/

/-- `List.find?` returns the element at the first index satisfying the
predicate. -/
theorem find?_eq_first_index {α : Type} (p : α → Bool) :
    ∀ (l : List α) (i : Nat) (hi : i < l.length),
      p (l.get ⟨i, hi⟩) = true →
      (∀ j (hj : j < i), p (l.get ⟨j, Nat.lt_trans hj hi⟩) = false) →
      l.find? p = some (l.get ⟨i, hi⟩) := by
  intro l
  induction l with
  | nil => intro i hi; simp at hi
  | cons a l ih =>
    intro i hi hp hprev
    cases i with
    | zero =>
      have ha : p a = true := hp
      simp [List.find?, ha]
    | succ i =>
      have ha : p a = false := hprev 0 (Nat.succ_pos i)
      have hrec := ih i (by simpa using hi) hp
        (fun j hj => hprev (j + 1) (Nat.succ_lt_succ hj))
      simpa [List.find?, ha] using hrec

/-! ## Claims -/

/-- C1: `_get_env_bool` returns `True` without warning for every value whose
whitespace-stripped, case-lowered form is a truthy token (`1,true,yes,on`),
`False` without warning for every falsy token (`0,false,no,off`), and for any
other non-empty value emits a warning and returns the caller-supplied
default. -/
theorem c1_get_env_bool (rawValue : String) (dflt : Bool) :
    (pyLower (pyStrip rawValue) ∈ truthyTokens →
       getEnvBool (some rawValue) dflt = ⟨true, false⟩) ∧
    (pyLower (pyStrip rawValue) ∈ falsyTokens →
       getEnvBool (some rawValue) dflt = ⟨false, false⟩) ∧
    (rawValue ≠ "" → pyLower (pyStrip rawValue) ∉ truthyTokens →
       pyLower (pyStrip rawValue) ∉ falsyTokens →
       getEnvBool (some rawValue) dflt = ⟨dflt, true⟩) := by
  refine ⟨fun h => ?_, fun h => ?_, fun _ h1 h2 => ?_⟩
  · simp [getEnvBool, h]
  · have hn : pyLower (pyStrip rawValue) ∉ truthyTokens := by
      intro ht
      simp only [falsyTokens, List.mem_cons, List.not_mem_nil, or_false] at h
      rcases h with h | h | h | h <;> rw [h] at ht <;>
        exact absurd ht (by decide)
    simp [getEnvBool, hn, h]
  · simp [getEnvBool, h1, h2]

/-- C1 witness: evaluation of the boolean parser on a truthy value with
surrounding whitespace and mixed case, a falsy value, and an unrecognized
non-empty value. -/
theorem c1_witness :
    getEnvBool (some " TRUE ") false = ⟨true, false⟩ ∧
    getEnvBool (some "Off") true = ⟨false, false⟩ ∧
    getEnvBool (some "banana") true = ⟨true, true⟩ :=
  ⟨(c1_get_env_bool " TRUE " false).1 (by decide),
   (c1_get_env_bool "Off" true).2.1 (by decide),
   (c1_get_env_bool "banana" true).2.2 (by decide) (by decide) (by decide)⟩

/-- C2: with a non-empty environment name, the candidate list is exactly
`env/<name>.env`, `<name>.env`, `env/test.env`, `test.env`, `.env`, in that
order; `_load_environment` loads, with override, exactly the candidate at the
first index that exists; and with name `staging`, `env/staging.env` and
`staging.env` absent and `env/test.env` present, it loads `env/test.env`. -/
theorem c2_env_file_search (fs : String → Bool) (name : String) (hname : name ≠ "") :
    candidatePaths (some name) =
      ["env/" ++ name ++ ".env", name ++ ".env", "env/test.env", "test.env", ".env"] ∧
    (∀ te i (hi : i < (candidatePaths te).length),
       fs ((candidatePaths te).get ⟨i, hi⟩) = true →
       (∀ j (hj : j < i), fs ((candidatePaths te).get ⟨j, Nat.lt_trans hj hi⟩) = false) →
       loadEnvironment fs te = .loaded ((candidatePaths te).get ⟨i, hi⟩) true) ∧
    (fs "env/staging.env" = false → fs "staging.env" = false → fs "env/test.env" = true →
       loadEnvironment fs (some "staging") = .loaded "env/test.env" true) := by
  refine ⟨by simp [candidatePaths, hname], fun te i hi hp hprev => ?_, fun h1 h2 h3 => ?_⟩
  · rw [loadEnvironment, find?_eq_first_index fs _ i hi hp hprev]
  · rw [loadEnvironment]
    simp [candidatePaths, List.find?, h1, h2, h3]

/-- C2 witness: on a filesystem where only `env/test.env` exists, environment
name `staging` resolves to loading `env/test.env` with override. -/
theorem c2_witness :
    loadEnvironment (fun s => s == "env/test.env") (some "staging") =
      .loaded "env/test.env" true :=
  (c2_env_file_search (fun s => s == "env/test.env") "staging" (by decide)).2.2
    (by decide) (by decide) (by decide)

/-- C9: the shared active-page reference is set to the test's page while the
test body runs and is cleared at teardown whatever the outcome, so between
tests it is always empty. -/
theorem c9_active_page_lifecycle (s : HarnessState) (p : Nat) (outcome : TestOutcome) :
    ((runTest s p outcome).2.1).activePage = some p ∧
    ((runTest s p outcome).1).activePage = none :=
  ⟨rfl, rfl⟩

/-- C10: the airport mapping accepts exactly codes `RTM` (display name
`Rome, Italy`) and `MAD` (display name `Madrid, Spain`); both airport
setters raise the validation `ValueError` for every other string. -/
theorem c10_airport_domain :
    (∀ code, (airportLookup code).isSome ↔ (code = "RTM" ∨ code = "MAD")) ∧
    airportLookup "RTM" = some "Rome, Italy" ∧
    airportLookup "MAD" = some "Madrid, Spain" ∧
    (∀ ui code, code ≠ "RTM" → code ≠ "MAD" →
       (set_departure_airport ui code).fst =
         .error (.valueError ("Airport code \x27" ++ code ++ "\x27 not found in mappings")) ∧
       (set_arrival_airport ui code).fst =
         .error (.valueError ("Airport code \x27" ++ code ++ "\x27 not found in mappings"))) := by
  have hlook : ∀ code, code ≠ "RTM" → code ≠ "MAD" → airportLookup code = none := by
    intro code h1 h2
    have hb1 : (code == "RTM") = false := by simp [h1]
    have hb2 : (code == "MAD") = false := by simp [h2]
    simp [airportLookup, AIRPORT_MAPPINGS, List.lookup, hb1, hb2]
  refine ⟨fun code => ?_, by decide, by decide, fun ui code h1 h2 => ?_⟩
  · by_cases h1 : code = "RTM"
    · subst h1; simp [airportLookup, AIRPORT_MAPPINGS, List.lookup]
    · by_cases h2 : code = "MAD"
      · subst h2; simp [airportLookup, AIRPORT_MAPPINGS, List.lookup]
      · simp [hlook code h1 h2, h1, h2]
  · constructor <;>
      simp [set_departure_airport, set_arrival_airport, hlook code h1 h2]

/-- C10 witness: evaluation on the unmapped code `ZZZ` and on the two mapped
codes. -/
theorem c10_witness :
    ((airportLookup "ZZZ").isSome ↔ ("ZZZ" = "RTM" ∨ "ZZZ" = "MAD")) ∧
    (set_departure_airport idleUI "ZZZ").fst =
      .error (.valueError ("Airport code \x27" ++ "ZZZ" ++ "\x27 not found in mappings")) :=
  ⟨c10_airport_domain.1 "ZZZ",
   (c10_airport_domain.2.2.2 idleUI "ZZZ" (by decide) (by decide)).1⟩

/-- A page-object outcome whose propagated exception, if any, is a Playwright
UI failure and never the validation `ValueError`. -/
def onlyUiErrors (o : PwOutcome) : Prop :=
  ∀ e, o.fst = .error e → e.isValueError = false

theorem okPair_onlyUiErrors (tr : List Action) :
    onlyUiErrors ((.ok (), tr) : PwOutcome) := by
  intro e he
  simp at he

theorem clickA_onlyUiErrors (ui : UI) (sel : String) : onlyUiErrors (clickA ui sel) := by
  intro e he
  simp only [clickA] at he
  cases h : ui.clickResult sel <;> rw [h] at he <;> simp at he
  rw [← he]
  rfl

theorem fillA_onlyUiErrors (ui : UI) (sel text : String) :
    onlyUiErrors (fillA ui sel text) := by
  intro e he
  simp only [fillA] at he
  cases h : ui.fillResult sel text <;> rw [h] at he <;> simp at he
  rw [← he]
  rfl

theorem seqA_onlyUiErrors {a b : PwOutcome} (ha : onlyUiErrors a) (hb : onlyUiErrors b) :
    onlyUiErrors (seqA a b) := by
  intro e he
  rcases a with ⟨fa, tra⟩
  cases fa with
  | error ea =>
    have : ea = e := by simpa [seqA] using he
    exact ha e (by simp [this])
  | ok u =>
    have : b.fst = .error e := by simpa [seqA] using he
    exact hb e this

theorem clearIfVisible_onlyUiErrors (ui : UI) (sel : String) :
    onlyUiErrors (clearIfVisible ui sel) := by
  unfold clearIfVisible
  split
  · exact seqA_onlyUiErrors (okPair_onlyUiErrors _) (clickA_onlyUiErrors ui sel)
  · exact okPair_onlyUiErrors _

theorem set_departure_airport_onlyUiErrors (ui : UI) (code fullName : String)
    (h : airportLookup code = some fullName) :
    onlyUiErrors (set_departure_airport ui code) := by
  unfold set_departure_airport
  rw [h]
  exact seqA_onlyUiErrors (clearIfVisible_onlyUiErrors ui clearDepartureSel)
    (seqA_onlyUiErrors (clickA_onlyUiErrors ui fromAirportInputSel)
      (seqA_onlyUiErrors (fillA_onlyUiErrors ui fromAirportInputSel code)
        (clickA_onlyUiErrors ui (airportSuggestionSel fullName))))

theorem set_arrival_airport_onlyUiErrors (ui : UI) (code fullName : String)
    (h : airportLookup code = some fullName) :
    onlyUiErrors (set_arrival_airport ui code) := by
  unfold set_arrival_airport
  rw [h]
  exact seqA_onlyUiErrors (clearIfVisible_onlyUiErrors ui clearArrivalSel)
    (seqA_onlyUiErrors (clickA_onlyUiErrors ui toAirportInputSel)
      (seqA_onlyUiErrors (fillA_onlyUiErrors ui toAirportInputSel code)
        (clickA_onlyUiErrors ui (airportSuggestionSel fullName))))

/-- C4: for every unmapped airport code, both airport setters raise the
validation `ValueError` with an empty interaction trace — before any UI
interaction, leaving the page untouched; for the mapped code `RTM` no
propagated exception is ever the validation error. -/
theorem c4_validation_before_ui (ui : UI) (code : String) :
    (airportLookup code = none →
       set_departure_airport ui code =
         (.error (.valueError ("Airport code \x27" ++ code ++ "\x27 not found in mappings")), []) ∧
       set_arrival_airport ui code =
         (.error (.valueError ("Airport code \x27" ++ code ++ "\x27 not found in mappings")), [])) ∧
    (∀ e tr, set_departure_airport ui "RTM" = (.error e, tr) → e.isValueError = false) ∧
    (∀ e tr, set_arrival_airport ui "RTM" = (.error e, tr) → e.isValueError = false) := by
  refine ⟨fun h => ?_, fun e tr h => ?_, fun e tr h => ?_⟩
  · constructor <;> simp [set_departure_airport, set_arrival_airport, h]
  · exact set_departure_airport_onlyUiErrors ui "RTM" "Rome, Italy" (by decide) e (by rw [h])
  · exact set_arrival_airport_onlyUiErrors ui "RTM" "Rome, Italy" (by decide) e (by rw [h])

/-- C4 witness: the unmapped code `ZZY` raises the validation error with an
empty trace, and the error propagated by `set_departure_airport RTM` under a
universally timing-out page is not the validation error. -/
theorem c4_witness :
    set_departure_airport idleUI "ZZY" =
      (.error (.valueError ("Airport code \x27" ++ "ZZY" ++ "\x27 not found in mappings")), []) ∧
    PwError.isValueError (.uiFailure "Timeout 15000ms exceeded") = false :=
  ⟨((c4_validation_before_ui idleUI "ZZY").1 (by decide)).1,
   (c4_validation_before_ui timeoutUI "RTM").2.1 (.uiFailure "Timeout 15000ms exceeded")
     [.queryVisible clearDepartureSel, .click fromAirportInputSel] rfl⟩

/-- C7: the parameterized departure-time step maps unit `week`/`weeks` to a
`value * 7` day offset and `day`/`days` to `value`, and for every other unit
raises `ValueError` without invoking the date-setting operation (empty
interaction trace). -/
theorem c7_departure_time_step (ui : UI) (today : Date) (value : Nat) (unit : String) :
    ((unit = "week" ∨ unit = "weeks") →
       set_departure_time ui today value unit = set_departure_date ui today (value * 7)) ∧
    ((unit = "day" ∨ unit = "days") →
       set_departure_time ui today value unit = set_departure_date ui today value) ∧
    (unit ≠ "week" → unit ≠ "weeks" → unit ≠ "day" → unit ≠ "days" →
       set_departure_time ui today value unit =
         (.error (.valueError ("Unsupported time unit: " ++ unit ++
            ". Please use \x27week(s)\x27 or \x27day(s)\x27.")), [])) := by
  refine ⟨fun h => ?_, fun h => ?_, fun h1 h2 h3 h4 => ?_⟩
  · simp [set_departure_time, h]
  · rcases h with h | h <;> subst h <;> simp [set_departure_time]
  · simp [set_departure_time, h1, h2, h3, h4]

/-- C7 witness: two weeks resolve to a fourteen-day offset, and the unit
`fortnights` raises without touching the date picker. -/
theorem c7_witness :
    set_departure_time idleUI ⟨2026, 10, 12⟩ 2 "weeks" =
      set_departure_date idleUI ⟨2026, 10, 12⟩ (2 * 7) ∧
    set_departure_time idleUI ⟨2026, 10, 12⟩ 3 "fortnights" =
      (.error (.valueError ("Unsupported time unit: " ++ "fortnights" ++
         ". Please use \x27week(s)\x27 or \x27day(s)\x27.")), []) :=
  ⟨(c7_departure_time_step idleUI ⟨2026, 10, 12⟩ 2 "weeks").1 (Or.inr rfl),
   (c7_departure_time_step idleUI ⟨2026, 10, 12⟩ 3 "fortnights").2.2
     (by decide) (by decide) (by decide) (by decide)⟩

/-- C8: `uncheck_accommodation_option` clicks the checkbox icon if and only
if the checked-state query answers true; on an unchecked checkbox (as after
any successful uncheck, making a second consecutive run a no-op) it performs
the state query only and returns normally. -/
theorem c8_uncheck_accommodation (ui : UI) (b : Bool)
    (h : ui.checkedResult accommodationCheckboxSel = .ok b) :
    (Action.click checkboxIconSel ∈ (uncheck_accommodation_option ui).snd ↔ b = true) ∧
    (b = false →
       uncheck_accommodation_option ui =
         (.ok (), [.queryChecked accommodationCheckboxSel])) := by
  cases b
  · refine ⟨?_, fun _ => ?_⟩ <;> simp [uncheck_accommodation_option, h]
  · refine ⟨?_, fun hb => by cases hb⟩
    simp [uncheck_accommodation_option, h, seqA, clickA]

/-- C8 witness: on an unchecked checkbox the operation is a pure query no-op;
on a checked one the icon click appears in the trace. -/
theorem c8_witness :
    uncheck_accommodation_option idleUI =
      (.ok (), [.queryChecked accommodationCheckboxSel]) ∧
    (Action.click checkboxIconSel ∈ (uncheck_accommodation_option timeoutUI).snd ↔
       true = true) :=
  ⟨(c8_uncheck_accommodation idleUI false rfl).2 rfl,
   (c8_uncheck_accommodation timeoutUI true rfl).1⟩

theorem parseDigitsAux_all_digits (ds : List Char) :
    ∀ acc, ds.all Char.isDigit = true →
      parseDigitsAux acc ds =
        some (ds.foldl (fun a c => a * 10 + (c.toNat - 48)) acc) := by
  induction ds with
  | nil => intro acc _; rfl
  | cons c cs ih =>
    intro acc h
    rw [List.all_cons, Bool.and_eq_true] at h
    obtain ⟨hc, hcs⟩ := h
    have hne : c ≠ '_' := by
      intro hc2
      rw [hc2] at hc
      exact absurd hc (by decide)
    rw [parseDigitsAux.eq_def]
    dsimp only
    simp only [hne, if_false, hc, if_true, List.foldl_cons]
    exact ih _ hcs

theorem parseDigits_all_digits (ds : List Char) (hne : ds ≠ [])
    (h : ds.all Char.isDigit = true) :
    parseDigits ds = some (digitsToNat ds) := by
  cases ds with
  | nil => exact absurd rfl hne
  | cons c cs =>
    rw [List.all_cons, Bool.and_eq_true] at h
    obtain ⟨hc, hcs⟩ := h
    rw [parseDigits]
    simp only [hc, if_true]
    rw [parseDigitsAux_all_digits cs _ hcs]
    simp [digitsToNat]

theorem pyIntParse_specNumeric (s : String) (h : specNumeric s = true) :
    pyIntParse s = some (specIntValue s) := by
  unfold specNumeric at h
  unfold pyIntParse specIntValue
  cases hd : (pyStrip s).data with
  | nil => rw [hd] at h; simp at h
  | cons c rest =>
    rw [hd] at h
    dsimp only at h ⊢
    by_cases hp : c = '+'
    · rw [if_pos (Or.inl hp)] at h
      rw [Bool.and_eq_true] at h
      obtain ⟨hne, hdig⟩ := h
      have hne2 : rest ≠ [] := by simpa using hne
      simp [hp, parseDigits_all_digits rest hne2 hdig]
    · by_cases hm : c = '-'
      · rw [if_pos (Or.inr hm)] at h
        rw [Bool.and_eq_true] at h
        obtain ⟨hne, hdig⟩ := h
        have hne2 : rest ≠ [] := by simpa using hne
        simp [hp, hm, parseDigits_all_digits rest hne2 hdig]
      · rw [if_neg (by tauto)] at h
        simp [hp, hm, parseDigits_all_digits (c :: rest) (by simp) h]

/-- C6: `_get_env_int` returns the caller-supplied default with a warning for
every value `int(...)` rejects, returns the parsed integer exactly for every
value it accepts, and in particular parses every plain numeric string
(optional surrounding whitespace, optional sign, digits) to its exact
integer value without warning. -/
theorem c6_get_env_int (s : String) (dflt : Int) :
    (pyIntParse s = none → getEnvInt (some s) dflt = ⟨dflt, true⟩) ∧
    (∀ n, pyIntParse s = some n → getEnvInt (some s) dflt = ⟨n, false⟩) ∧
    (specNumeric s = true → getEnvInt (some s) dflt = ⟨specIntValue s, false⟩) := by
  refine ⟨fun h => ?_, fun n h => ?_, fun h => ?_⟩
  · simp [getEnvInt, h]
  · simp [getEnvInt, h]
  · simp [getEnvInt, pyIntParse_specNumeric s h]

/-- C6 witness: evaluation on a numeric value with whitespace and on a
non-numeric value. -/
theorem c6_witness :
    getEnvInt (some " 42 ") 7 = ⟨specIntValue " 42 ", false⟩ ∧
    getEnvInt (some "abc") 7 = ⟨7, true⟩ ∧
    specIntValue " 42 " = 42 :=
  ⟨(c6_get_env_int " 42 " 7).2.2 (by decide),
   (c6_get_env_int "abc" 7).1 (by decide),
   by decide⟩

theorem digitChar_isDigit (n : Nat) : (digitChar n).isDigit = true := by
  have h : n % 10 < 10 := Nat.mod_lt _ (by norm_num)
  unfold digitChar
  interval_cases h2 : n % 10 <;> decide

theorem pyDateFormat_data (d : Date) :
    (pyDateFormat d).data =
      [digitChar (d.year / 1000), digitChar (d.year / 100), digitChar (d.year / 10),
       digitChar d.year, '-', digitChar (d.month / 10), digitChar d.month, '-',
       digitChar (d.day / 10), digitChar d.day] := rfl

theorem isIso_pyDateFormat (d : Date) : isIsoDateString (pyDateFormat d) = true := by
  rw [isIsoDateString, pyDateFormat_data]
  dsimp only
  simp [digitChar_isDigit]

theorem one_le_daysInMonth (y m : Nat) : 1 ≤ daysInMonth y m := by
  unfold daysInMonth
  split_ifs <;> norm_num

set_option maxHeartbeats 2000000 in
theorem daysBeforeYear_succ (y : Nat) (hy : 1 ≤ y) :
    daysBeforeYear (y + 1) = daysBeforeYear y + (if isLeap y then 366 else 365) := by
  obtain ⟨k, rfl⟩ : ∃ k, y = k + 1 := ⟨y - 1, by omega⟩
  unfold daysBeforeYear isLeap
  simp only [Nat.add_sub_cancel]
  by_cases c4 : (k + 1) % 4 = 0 <;> by_cases c100 : (k + 1) % 100 = 0 <;>
    by_cases c400 : (k + 1) % 400 = 0 <;>
      simp [c4, c100, c400] <;> omega

theorem daysBeforeMonth_succ (y m : Nat) (h1 : 1 ≤ m) (h2 : m ≤ 11) :
    daysBeforeMonth y (m + 1) = daysBeforeMonth y m + daysInMonth y m := by
  by_cases hl : isLeap y = true <;> interval_cases m <;>
    simp [daysBeforeMonth, daysBeforeMonthTable, daysInMonth, hl]

theorem toOrdinal_next (d : Date) (h : d.valid) :
    d.next.toOrdinal = d.toOrdinal + 1 := by
  obtain ⟨hy, hm1, hm2, hd1, hd2⟩ := h
  unfold Date.next Date.toOrdinal
  by_cases hlt : d.day < daysInMonth d.year d.month
  · simp only [hlt, if_true]
    omega
  · have hde : d.day = daysInMonth d.year d.month := by omega
    by_cases hm : d.month < 12
    · simp only [hlt, if_false, hm, if_true]
      rw [daysBeforeMonth_succ d.year d.month hm1 (by omega)]
      omega
    · have hm12 : d.month = 12 := by omega
      have hdim : daysInMonth d.year 12 = 31 := by norm_num [daysInMonth]
      simp only [hlt, if_false, hm]
      rw [daysBeforeYear_succ d.year hy, hm12]
      have hday : d.day = 31 := by rw [hde, hm12, hdim]
      have h1 : daysBeforeMonth (d.year + 1) 1 = 0 := by
        norm_num [daysBeforeMonth, daysBeforeMonthTable]
      have h12 : daysBeforeMonth d.year 12 =
          334 + (if isLeap d.year then 1 else 0) := by
        norm_num [daysBeforeMonth, daysBeforeMonthTable]
      rw [h1, h12, hday]
      by_cases hl : isLeap d.year = true <;> simp [hl]

theorem valid_next (d : Date) (h : d.valid) : d.next.valid := by
  obtain ⟨hy, hm1, hm2, hd1, hd2⟩ := h
  unfold Date.next Date.valid
  by_cases hlt : d.day < daysInMonth d.year d.month
  · simp only [hlt, if_true]
    exact ⟨hy, hm1, hm2, by omega, by omega⟩
  · by_cases hm : d.month < 12
    · simp only [hlt, if_false, hm, if_true]
      exact ⟨hy, by omega, by omega, by omega,
        one_le_daysInMonth d.year (d.month + 1)⟩
    · simp only [hlt, if_false, hm]
      exact ⟨by omega, by norm_num, by norm_num, by norm_num,
        one_le_daysInMonth (d.year + 1) 1⟩

theorem dateAddDays_valid_toOrdinal (d : Date) (h : d.valid) (n : Nat) :
    (dateAddDays d n).valid ∧ (dateAddDays d n).toOrdinal = d.toOrdinal + n := by
  induction n with
  | zero => exact ⟨h, rfl⟩
  | succ n ih =>
    obtain ⟨hv, ho⟩ := ih
    refine ⟨valid_next _ hv, ?_⟩
    rw [dateAddDays, toOrdinal_next _ hv, ho]
    omega

/-- C5: for every non-negative day offset `n`, `set_departure_date` targets
exactly today plus `n` days — the targeted date is a valid calendar date
whose proleptic-Gregorian ordinal is today's plus `n` — and clicks the
calendar cell whose value is that date in ISO `YYYY-MM-DD` shape, right
after opening the date picker. -/
theorem c5_departure_date (ui : UI) (today : Date) (n : Nat) (h : today.valid) :
    (dateAddDays today n).toOrdinal = today.toOrdinal + n ∧
    (dateAddDays today n).valid ∧
    isIsoDateString (pyDateFormat (dateAddDays today n)) = true ∧
    (ui.clickResult departureDateInputSel = none →
       ∃ tr, (set_departure_date ui today n).snd =
         .click departureDateInputSel ::
           .click (calendarDaySel (pyDateFormat (dateAddDays today n))) :: tr) := by
  obtain ⟨hv, ho⟩ := dateAddDays_valid_toOrdinal today h n
  refine ⟨ho, hv, isIso_pyDateFormat _, fun hclick => ?_⟩
  unfold set_departure_date
  cases hcell : ui.clickResult (calendarDaySel (pyDateFormat (dateAddDays today n)))
  · exact ⟨[.click setDatesButtonSel], by simp [seqA, clickA, hclick, hcell]⟩
  · exact ⟨[], by simp [seqA, clickA, hclick, hcell]⟩

/-- C5 witness: from October 12 2026, a 7-day offset targets October 19 2026,
and the page interaction clicks the picker, that cell, and the confirm
button. -/
theorem c5_witness :
    (dateAddDays ⟨2026, 10, 12⟩ 7).toOrdinal = (Date.mk 2026 10 12).toOrdinal + 7 ∧
    pyDateFormat (dateAddDays ⟨2026, 10, 12⟩ 7) = "2026-10-19" ∧
    (set_departure_date idleUI ⟨2026, 10, 12⟩ 7).snd =
      [.click departureDateInputSel,
       .click (calendarDaySel (pyDateFormat (dateAddDays ⟨2026, 10, 12⟩ 7))),
       .click setDatesButtonSel] :=
  ⟨(c5_departure_date idleUI ⟨2026, 10, 12⟩ 7 (by decide)).1, by decide, by decide⟩

/-- C3 counterexample: on a page where every click raises a timeout, the
timing failure inside `click_search_button` and inside
`uncheck_accommodation_option` propagates to the caller as a raised
exception instead of being caught and converted to a boolean or no-op
outcome — refuting the claim that every visibility or timing failure in
every Page Object operation is caught. -/
theorem c3_counterexample :
    (click_search_button timeoutUI).fst =
      .error (.uiFailure "Timeout 15000ms exceeded") ∧
    (uncheck_accommodation_option timeoutUI).fst =
      .error (.uiFailure "Timeout 15000ms exceeded") :=
  ⟨rfl, rfl⟩

/-- C3 amended: only `accept_privacy_consent` converts visibility and timing
failures into a boolean outcome; airport-code validation raises the hard
`ValueError`; the clear-control visibility checks soft-fail by returning a
boolean; but timing failures raised by the click, fill and checked-state
primitives inside the other operations (clearing a selection, typing,
clicking suggestions, date picking, checkbox toggling, search submission)
propagate to the caller. -/
theorem c3_amended_error_policy (ui : UI) :
    ((accept_privacy_consent ui).fst =
       (ui.isVisible cookiesAcceptSel && (ui.clickResult cookiesAcceptSel).isNone)) ∧
    (∀ code, airportLookup code = none →
       (set_departure_airport ui code).fst =
         .error (.valueError ("Airport code \x27" ++ code ++ "\x27 not found in mappings"))) ∧
    (∀ msg, ui.clickResult searchButtonSel = some msg →
       (click_search_button ui).fst = .error (.uiFailure msg)) ∧
    (∀ msg, ui.checkedResult accommodationCheckboxSel = .ok true →
       ui.clickResult checkboxIconSel = some msg →
       (uncheck_accommodation_option ui).fst = .error (.uiFailure msg)) ∧
    (∀ msg today totalDays, ui.clickResult departureDateInputSel = some msg →
       (set_departure_date ui today totalDays).fst = .error (.uiFailure msg)) ∧
    (∀ code fullName msg, airportLookup code = some fullName →
       ui.isVisible clearDepartureSel = false →
       ui.clickResult fromAirportInputSel = none →
       ui.fillResult fromAirportInputSel code = none →
       ui.clickResult (airportSuggestionSel fullName) = some msg →
       (set_departure_airport ui code).fst = .error (.uiFailure msg)) ∧
    (∀ msg, ui.checkedResult accommodationCheckboxSel = .error msg →
       (uncheck_accommodation_option ui).fst = .error (.uiFailure msg)) ∧
    (∀ code fullName msg, airportLookup code = some fullName →
       ui.isVisible clearDepartureSel = true →
       ui.clickResult clearDepartureSel = some msg →
       (set_departure_airport ui code).fst = .error (.uiFailure msg)) ∧
    (∀ code fullName msg, airportLookup code = some fullName →
       ui.isVisible clearDepartureSel = false →
       ui.clickResult fromAirportInputSel = none →
       ui.fillResult fromAirportInputSel code = some msg →
       (set_departure_airport ui code).fst = .error (.uiFailure msg)) ∧
    (∀ code fullName msg, airportLookup code = some fullName →
       ui.isVisible clearArrivalSel = true →
       ui.clickResult clearArrivalSel = some msg →
       (set_arrival_airport ui code).fst = .error (.uiFailure msg)) ∧
    (∀ code fullName msg, airportLookup code = some fullName →
       ui.isVisible clearArrivalSel = false →
       ui.clickResult toAirportInputSel = none →
       ui.fillResult toAirportInputSel code = some msg →
       (set_arrival_airport ui code).fst = .error (.uiFailure msg)) ∧
    (∀ code fullName msg, airportLookup code = some fullName →
       ui.isVisible clearArrivalSel = false →
       ui.clickResult toAirportInputSel = none →
       ui.fillResult toAirportInputSel code = none →
       ui.clickResult (airportSuggestionSel fullName) = some msg →
       (set_arrival_airport ui code).fst = .error (.uiFailure msg)) := by
  refine ⟨?_, fun code h => ?_, fun msg h => ?_, fun msg h1 h2 => ?_,
    fun msg today totalDays h => ?_, fun code fullName msg h1 h2 h3 h4 h5 => ?_,
    fun msg h => ?_, fun code fullName msg h1 h2 h3 => ?_,
    fun code fullName msg h1 h2 h3 h4 => ?_, fun code fullName msg h1 h2 h3 => ?_,
    fun code fullName msg h1 h2 h3 h4 => ?_, fun code fullName msg h1 h2 h3 h4 h5 => ?_⟩
  · unfold accept_privacy_consent
    cases hv : ui.isVisible cookiesAcceptSel
    · simp
    · cases hc : ui.clickResult cookiesAcceptSel <;> simp [hc]
  · simp [set_departure_airport, h]
  · simp [click_search_button, clickA, h]
  · simp [uncheck_accommodation_option, h1, seqA, clickA, h2]
  · simp [set_departure_date, seqA, clickA, h]
  · simp [set_departure_airport, h1, clearIfVisible, h2, seqA, clickA, fillA, h3, h4, h5]
  · simp [uncheck_accommodation_option, h]
  · simp [set_departure_airport, h1, clearIfVisible, h2, seqA, clickA, h3]
  · simp [set_departure_airport, h1, clearIfVisible, h2, seqA, clickA, fillA, h3, h4]
  · simp [set_arrival_airport, h1, clearIfVisible, h2, seqA, clickA, h3]
  · simp [set_arrival_airport, h1, clearIfVisible, h2, seqA, clickA, fillA, h3, h4]
  · simp [set_arrival_airport, h1, clearIfVisible, h2, seqA, clickA, fillA, h3, h4, h5]

/-- C3 amended witness: evaluation at pages where every click times out
(consent handling still returns a boolean; the search-button timeout
propagates), where the Rome suggestion click times out in both airport
setters, where the fill into either airport input times out, where the
visible clear control's click times out, and where the checked-state query
itself raises. -/
theorem c3_amended_witness :
    (accept_privacy_consent timeoutUI).fst =
      (timeoutUI.isVisible cookiesAcceptSel &&
        (timeoutUI.clickResult cookiesAcceptSel).isNone) ∧
    (click_search_button timeoutUI).fst =
      .error (.uiFailure "Timeout 15000ms exceeded") ∧
    (set_departure_airport suggestionTimeoutUI "RTM").fst =
      .error (.uiFailure "Timeout 15000ms exceeded") ∧
    (uncheck_accommodation_option clearTimeoutUI).fst =
      .error (.uiFailure "Timeout 15000ms exceeded") ∧
    (set_departure_airport clearTimeoutUI "RTM").fst =
      .error (.uiFailure "Timeout 15000ms exceeded") ∧
    (set_departure_airport fillTimeoutUI "RTM").fst =
      .error (.uiFailure "Timeout 15000ms exceeded") ∧
    (set_arrival_airport clearTimeoutUI "MAD").fst =
      .error (.uiFailure "Timeout 15000ms exceeded") ∧
    (set_arrival_airport fillTimeoutUI "MAD").fst =
      .error (.uiFailure "Timeout 15000ms exceeded") ∧
    (set_arrival_airport suggestionTimeoutUI "RTM").fst =
      .error (.uiFailure "Timeout 15000ms exceeded") :=
  ⟨(c3_amended_error_policy timeoutUI).1,
   (c3_amended_error_policy timeoutUI).2.2.1 "Timeout 15000ms exceeded" rfl,
   (c3_amended_error_policy suggestionTimeoutUI).2.2.2.2.2.1 "RTM" "Rome, Italy"
     "Timeout 15000ms exceeded" (by decide) rfl (by decide) rfl (by decide),
   (c3_amended_error_policy clearTimeoutUI).2.2.2.2.2.2.1
     "Timeout 15000ms exceeded" rfl,
   (c3_amended_error_policy clearTimeoutUI).2.2.2.2.2.2.2.1 "RTM" "Rome, Italy"
     "Timeout 15000ms exceeded" (by decide) rfl rfl,
   (c3_amended_error_policy fillTimeoutUI).2.2.2.2.2.2.2.2.1 "RTM" "Rome, Italy"
     "Timeout 15000ms exceeded" (by decide) rfl rfl rfl,
   (c3_amended_error_policy clearTimeoutUI).2.2.2.2.2.2.2.2.2.1 "MAD" "Madrid, Spain"
     "Timeout 15000ms exceeded" (by decide) rfl rfl,
   (c3_amended_error_policy fillTimeoutUI).2.2.2.2.2.2.2.2.2.2.1 "MAD" "Madrid, Spain"
     "Timeout 15000ms exceeded" (by decide) rfl rfl rfl,
   (c3_amended_error_policy suggestionTimeoutUI).2.2.2.2.2.2.2.2.2.2.2 "RTM" "Rome, Italy"
     "Timeout 15000ms exceeded" (by decide) rfl (by decide) rfl (by decide)⟩

end KiwiSpec
